import Mathlib

/-!
Verification of the paket-stellar transaction-bundle composer
(`src/paket_stellar/__init__.py`) against its specification.

The module composes escrow and relay transaction bundles on the Stellar
ledger.  We embed the composer shallowly: the stellar_base builder is a
record of the data the source code feeds it (address, sequence, operation
list, time bounds, memo); network access to Horizon is a finite map from
public keys to account details, passed explicitly; fallible code returns
`Except`.  The content hash of a transaction (`hash_meta`) is modelled as
the canonical content of the transaction itself, which is deterministic
and injective exactly as the specification requires of the hash, and
serialization (`xdr`) is modelled as the identity on that content, since
the specification demands that envelopes round-trip exactly.  Python
strings used as memos are sequences of code points, embedded as
`List Char`; `len` on such a string is `List.length` and `s[:28]` is
`List.take 28`.
-/

/-- Token code constant `BUL_TOKEN_CODE = 'BUL'` from the source. -/
def BUL_TOKEN_CODE : String := "BUL"

/-- Modelled from the spec: `ISSUER` is module-level configuration read from
the environment (`os.environ`), not code under src.  Per the spec it is an
explicit configuration value; we fix it as a distinguished constant. -/
def ISSUER : String := "GISSUERPUBKEY"

/-- Modelled from the spec: `util.conversion` (not under src) converts between
the smallest denomination (stroops) and base units; the units value of `n`
stroops is the exact decimal `n / 10^7`, which we represent by its numerator
`n`, a faithful (bijective) encoding of the decimal string. -/
structure AssetUnits where
  stroops : Nat
deriving DecidableEq

/-- Modelled from the spec: `util.conversion.stroops_to_units`. -/
def stroops_to_units (stroop_amount : Nat) : AssetUnits := ⟨stroop_amount⟩

/-- Modelled from the spec: `util.conversion.units_to_stroops`, the inverse
conversion applied to balances fetched from Horizon. -/
def units_to_stroops (units : AssetUnits) : Nat := units.stroops

/-- Time bounds of a transaction, as passed to `add_time_bounds`
(`minTime`/`maxTime` Unix timestamps; `maxTime = 0` means no upper bound). -/
structure TimeBounds where
  minTime : Nat
  maxTime : Nat
deriving DecidableEq

mutual

/-- A typed ledger operation, following the `stellar_base.builder` append
calls the source uses.  `setOptions` carries the optional keyword arguments
the source passes to `append_set_options_op`: a signer (address, type,
weight) or a master weight with thresholds. -/
inductive Operation where
  | createAccount (destination : String) (starting_balance : AssetUnits)
  | payment (destination : String) (amount : AssetUnits) (asset_code : String)
      (asset_issuer : Option String)
  | changeTrust (asset_code : String) (asset_issuer : String) (limit : Option AssetUnits)
  | accountMerge (destination : String)
  | setOptions (signer_address : Option SignerAddress) (signer_type : Option String)
      (signer_weight : Option Nat) (master_weight : Option Nat)
      (low_threshold : Option Nat) (med_threshold : Option Nat)
      (high_threshold : Option Nat)

/-- The `signer_address` argument of `append_set_options_op`: either a real
public key (signer type `ed25519PublicKey`) or a transaction content hash
(signer type `preAuthTx`). -/
inductive SignerAddress where
  | pubkeyAddress (pubkey : String)
  | preAuthTxHash (hash : TxHash)

/-- Content hash of a transaction (`hash_meta`): a deterministic function of
the canonical encoding of the transaction excluding signatures.  We model
it as the canonical content itself, which is deterministic and injective. -/
inductive TxHash where
  | hashOf (source : String) (sequence : Nat) (operations : List Operation)
      (time_bounds : Option TimeBounds) (memo : Option (List Char))

end

/-- An unsigned transaction produced by `gen_te`: source account, sequence
number, ordered operation list, optional time bounds, optional text memo. -/
structure Transaction where
  source : String
  sequence : Nat
  operations : List Operation
  time_bounds : Option TimeBounds
  memo : Option (List Char)

/-- The content hash `hash_meta` of a generated envelope. -/
def Transaction.hash_meta (t : Transaction) : TxHash :=
  .hashOf t.source t.sequence t.operations t.time_bounds t.memo

/-- Canonical serialization `xdr().decode()`.  The envelope format is
injective and round-trips exactly, so we model the serialized form by the
transaction content itself. -/
def Transaction.xdr (t : Transaction) : Transaction := t

/-- The state of a `stellar_base.builder.Builder` as the source uses it. -/
structure Builder where
  address : String
  sequence : Nat
  operations : List Operation
  time_bounds : Option TimeBounds
  memo : Option (List Char)

/-- Append one operation to the builder (all `append_*_op` calls do this). -/
def Builder.append_op (b : Builder) (op : Operation) : Builder :=
  { b with operations := b.operations ++ [op] }

/-- `builder.append_create_account_op(destination, starting_balance)`. -/
def Builder.append_create_account_op (b : Builder) (destination : String)
    (starting_balance : AssetUnits) : Builder :=
  b.append_op (.createAccount destination starting_balance)

/-- `builder.append_payment_op(destination, amount, asset_code, asset_issuer)`. -/
def Builder.append_payment_op (b : Builder) (destination : String) (amount : AssetUnits)
    (asset_code : String) (asset_issuer : Option String) : Builder :=
  b.append_op (.payment destination amount asset_code asset_issuer)

/-- `builder.append_change_trust_op(asset_code, asset_issuer, limit)`. -/
def Builder.append_change_trust_op (b : Builder) (asset_code : String)
    (asset_issuer : String) (limit : Option AssetUnits) : Builder :=
  b.append_op (.changeTrust asset_code asset_issuer limit)

/-- `builder.append_account_merge_op(destination)`. -/
def Builder.append_account_merge_op (b : Builder) (destination : String) : Builder :=
  b.append_op (.accountMerge destination)

/-- `builder.append_set_options_op(signer_address=…, signer_type=…,
signer_weight=…)` — the signer-registering call pattern of the source. -/
def Builder.append_set_options_signer_op (b : Builder) (signer_address : SignerAddress)
    (signer_type : String) (signer_weight : Nat) : Builder :=
  b.append_op (.setOptions (some signer_address) (some signer_type) (some signer_weight)
    none none none none)

/-- `builder.append_set_options_op(master_weight=…, low_threshold=…,
med_threshold=…, high_threshold=…)` — the threshold-setting call pattern. -/
def Builder.append_set_options_thresholds_op (b : Builder) (master_weight : Nat)
    (low_threshold : Nat) (med_threshold : Nat) (high_threshold : Nat) : Builder :=
  b.append_op (.setOptions none none none (some master_weight) (some low_threshold)
    (some med_threshold) (some high_threshold))

/-- `builder.add_time_bounds(bounds)`. -/
def Builder.add_time_bounds (b : Builder) (bounds : TimeBounds) : Builder :=
  { b with time_bounds := some bounds }

/-- `builder.add_text_memo(memo)`. -/
def Builder.add_text_memo (b : Builder) (memo : List Char) : Builder :=
  { b with memo := some memo }

/-- `builder.gen_te()`: generate the unsigned transaction envelope from the
builder state. -/
def Builder.gen_te (b : Builder) : Transaction :=
  ⟨b.address, b.sequence, b.operations, b.time_bounds, b.memo⟩

/-- The truncation rule of `add_memo` (source lines 78-81): Python `len` on a
string counts code points and `memo[:28]` keeps the first 28 code points. -/
def memo_policy (memo : List Char) : List Char :=
  if memo.length > 28 then memo.take 28 else memo

/-- `add_memo(builder, memo)`: truncate the memo to at most 28 code points
(with a logged warning) and attach it as the text memo. -/
def add_memo (builder : Builder) (memo : List Char) : Builder :=
  builder.add_text_memo (memo_policy memo)

/-- The UTF-8 byte length of a Python string (sum of each code point's UTF-8
size); the on-ledger memo limit the source aims at is 28 of these bytes. -/
def byteLength (memo : List Char) : Nat :=
  (memo.map Char.utf8Size).sum

/-- The error kinds the source raises (its exception classes, plus the
account-missing error the external builder library raises when it is asked
to fetch a sequence number for a nonexistent account). -/
inductive StellarError where
  | stellarAccountNotExists (message : String)
  | trustError (message : String)
  | accountNotExistError (message : String)
deriving DecidableEq

/-- One entry of the `balances` list of a Horizon account response. -/
structure BalanceEntry where
  asset_type : Option String
  asset_code : Option String
  asset_issuer : Option String
  balance : AssetUnits
  limit : AssetUnits

/-- The account thresholds as reported by Horizon. -/
structure Thresholds where
  low_threshold : Nat
  med_threshold : Nat
  high_threshold : Nat

/-- The details Horizon reports for an existing account
(`stellar_base.address.Address` after `get()`). -/
structure AddressDetails where
  sequence : Nat
  signers : List (String × Nat)
  thresholds : Thresholds
  balances : List BalanceEntry

/-- The ledger snapshot: Horizon as a map from public key to account
details, `none` meaning the account does not exist (a Horizon error). -/
def Horizon := String → Option AddressDetails

/-- The account dictionary `get_bul_account` builds. -/
structure Account where
  sequence : Nat
  signers : List (String × Nat)
  thresholds : Thresholds
  xlm_balance : Option Nat
  bul_balance : Option Nat
  bul_limit : Option Nat

/-- One iteration of the balance loop of `get_bul_account` (source lines
65-70): a native balance sets `xlm_balance`; a BUL balance from the issuer
sets `bul_balance` and `bul_limit`. -/
def process_balance (account : Account) (balance : BalanceEntry) : Account :=
  let account :=
    if balance.asset_type = some "native" then
      { account with xlm_balance := some (units_to_stroops balance.balance) }
    else account
  if balance.asset_code = some BUL_TOKEN_CODE ∧ balance.asset_issuer = some ISSUER then
    { account with bul_balance := some (units_to_stroops balance.balance),
                   bul_limit := some (units_to_stroops balance.limit) }
  else account

/-- The whole balance loop of `get_bul_account`. -/
def process_balances (account : Account) (balances : List BalanceEntry) : Account :=
  balances.foldl process_balance account

/-- `get_bul_account(pubkey, accept_untrusted)` (source lines 56-73): fetch
the account details, raising `StellarAccountNotExists` when Horizon has no
such account; collect sequence, signers, thresholds and balances; raise
`TrustError` when the account holds no BUL balance and the caller did not
accept untrusted accounts. -/
def get_bul_account (horizon : Horizon) (pubkey : String) (accept_untrusted : Bool) :
    Except StellarError Account :=
  match horizon pubkey with
  | none => .error (.stellarAccountNotExists ("no account found for " ++ pubkey))
  | some details =>
    let account := process_balances
      { sequence := details.sequence, signers := details.signers,
        thresholds := details.thresholds,
        xlm_balance := none, bul_balance := none, bul_limit := none }
      details.balances
    if account.bul_balance = none ∧ accept_untrusted = false then
      .error (.trustError ("account " ++ pubkey ++ " does not trust " ++ BUL_TOKEN_CODE
        ++ " from " ++ ISSUER))
    else
      .ok account

/-- `gen_builder(pubkey, sequence_delta)` (source lines 86-93): when
`sequence_delta` is truthy (not `None` and not `0`), fetch the account (any
trust accepted) and create the builder with the explicit sequence
`account sequence + sequence_delta`; otherwise create the builder with the
address alone, in which case the external builder library itself fetches
the account's current sequence (and fails when the account is missing). -/
def gen_builder (horizon : Horizon) (pubkey : String) (sequence_delta : Option Nat) :
    Except StellarError Builder :=
  if sequence_delta.getD 0 ≠ 0 then
    match get_bul_account horizon pubkey true with
    | .error e => .error e
    | .ok account =>
      .ok { address := pubkey, sequence := account.sequence + sequence_delta.getD 0,
            operations := [], time_bounds := none, memo := none }
  else
    match horizon pubkey with
    | none => .error (.accountNotExistError ("account " ++ pubkey ++ " does not exist"))
    | some details =>
      .ok { address := pubkey, sequence := details.sequence,
            operations := [], time_bounds := none, memo := none }

/-- `prepare_create_account(from_pubkey, new_pubkey, starting_stroop_balance)`
(source lines 113-118). -/
def prepare_create_account (horizon : Horizon) (from_pubkey new_pubkey : String)
    (starting_stroop_balance : Nat) : Except StellarError Transaction :=
  let starting_xlm_balance := stroops_to_units starting_stroop_balance
  match gen_builder horizon from_pubkey none with
  | .error e => .error e
  | .ok builder =>
    let builder := builder.append_create_account_op new_pubkey starting_xlm_balance
    .ok builder.gen_te.xdr

/-- `prepare_trust(from_pubkey, stroop_limit)` (source lines 121-126). -/
def prepare_trust (horizon : Horizon) (from_pubkey : String) (stroop_limit : Option Nat) :
    Except StellarError Transaction :=
  let asset_limit := stroop_limit.map stroops_to_units
  match gen_builder horizon from_pubkey none with
  | .error e => .error e
  | .ok builder =>
    let builder := builder.append_change_trust_op BUL_TOKEN_CODE ISSUER asset_limit
    .ok builder.gen_te.xdr

/-- `prepare_send(from_pubkey, to_pubkey, stroop_amount, asset_code,
asset_issuer)` (source lines 129-134). -/
def prepare_send (horizon : Horizon) (from_pubkey to_pubkey : String) (stroop_amount : Nat)
    (asset_code : String) (asset_issuer : Option String) : Except StellarError Transaction :=
  let amount_to_send := stroops_to_units stroop_amount
  match gen_builder horizon from_pubkey none with
  | .error e => .error e
  | .ok builder =>
    let builder := builder.append_payment_op to_pubkey amount_to_send asset_code asset_issuer
    .ok builder.gen_te.xdr

/-- The default value of the `asset_code` parameter in the signature of
`prepare_send`. -/
def prepare_send_default_asset_code : String := "XLM"

/-- The default value of the `asset_issuer` parameter in the signature of
`prepare_send` (`None`). -/
def prepare_send_default_asset_issuer : Option String := none

/-- `prepare_send_buls(from_pubkey, to_pubkey, stroop_amount)` (source lines
137-139): delegates to `prepare_send` with the BUL token code and issuer. -/
def prepare_send_buls (horizon : Horizon) (from_pubkey to_pubkey : String)
    (stroop_amount : Nat) : Except StellarError Transaction :=
  prepare_send horizon from_pubkey to_pubkey stroop_amount BUL_TOKEN_CODE (some ISSUER)

/-- `prepare_send_lumens(from_pubkey, to_pubkey, stroop_amount)` (source lines
142-144): delegates to `prepare_send`, leaving the asset parameters at the
defaults of its signature. -/
def prepare_send_lumens (horizon : Horizon) (from_pubkey to_pubkey : String)
    (stroop_amount : Nat) : Except StellarError Transaction :=
  prepare_send horizon from_pubkey to_pubkey stroop_amount
    prepare_send_default_asset_code prepare_send_default_asset_issuer

/-- The escrow bundle: the dictionary `prepare_escrow` returns (source lines
196-202), with exactly its fields. -/
structure EscrowDetails where
  escrow_pubkey : String
  launcher_pubkey : String
  recipient_pubkey : String
  payment : Nat
  collateral : Nat
  deadline : Nat
  set_options_transaction : Transaction
  refund_transaction : Transaction
  payment_transaction : Transaction
  merge_transaction : Transaction

/-- The keys of the dictionary literal `prepare_escrow` returns, in source
order (source lines 196-202). -/
def escrow_details_keys : List String :=
  ["escrow_pubkey", "launcher_pubkey", "recipient_pubkey",
   "payment", "collateral", "deadline",
   "set_options_transaction", "refund_transaction",
   "payment_transaction", "merge_transaction"]

/-- `prepare_escrow(escrow_pubkey, launcher_pubkey, courier_pubkey,
recipient_pubkey, payment, collateral, deadline)` (source lines 148-203):
build the refund, payment and merge transactions, then the freeze
(set-options) transaction registering their hashes and the recipient as the
only signers, and return the bundle dictionary. -/
def prepare_escrow (horizon : Horizon)
    (escrow_pubkey launcher_pubkey courier_pubkey recipient_pubkey : String)
    (payment collateral deadline : Nat) : Except StellarError EscrowDetails := do
  let total := stroops_to_units (payment + collateral)
  -- Refund transaction, in case of failed delivery, timelocked.
  let builder ← gen_builder horizon escrow_pubkey (some 1)
  let builder := builder.append_payment_op launcher_pubkey total BUL_TOKEN_CODE (some ISSUER)
  let builder := builder.add_time_bounds ⟨deadline, 0⟩
  let builder := add_memo builder "refund".toList
  let refund_envelope := builder.gen_te
  -- Payment transaction, in case of successful delivery.
  let builder ← gen_builder horizon escrow_pubkey (some 1)
  let builder := builder.append_payment_op courier_pubkey total BUL_TOKEN_CODE (some ISSUER)
  let builder := add_memo builder "payment".toList
  let payment_envelope := builder.gen_te
  -- Merge transaction, to drain the remaining XLM from the account, timelocked.
  let builder ← gen_builder horizon escrow_pubkey (some 2)
  let builder := builder.append_change_trust_op BUL_TOKEN_CODE ISSUER (some ⟨0⟩)
  let builder := builder.append_account_merge_op launcher_pubkey
  let builder := add_memo builder "close escrow".toList
  let merge_envelope := builder.gen_te
  -- Set transactions and recipient as only signers.
  let builder ← gen_builder horizon escrow_pubkey none
  let builder := builder.append_set_options_signer_op
    (.preAuthTxHash refund_envelope.hash_meta) "preAuthTx" 2
  let builder := builder.append_set_options_signer_op
    (.preAuthTxHash payment_envelope.hash_meta) "preAuthTx" 1
  let builder := builder.append_set_options_signer_op
    (.preAuthTxHash merge_envelope.hash_meta) "preAuthTx" 3
  let builder := builder.append_set_options_signer_op
    (.pubkeyAddress recipient_pubkey) "ed25519PublicKey" 1
  let builder := builder.append_set_options_thresholds_op 0 1 2 3
  let builder := add_memo builder "freeze".toList
  let set_options_envelope := builder.gen_te
  pure { escrow_pubkey, launcher_pubkey, recipient_pubkey,
         payment, collateral, deadline,
         set_options_transaction := set_options_envelope.xdr,
         refund_transaction := refund_envelope.xdr,
         payment_transaction := payment_envelope.xdr,
         merge_transaction := merge_envelope.xdr }

/-- The relay bundle: the dictionary `prepare_relay` returns (source lines
253-259), with exactly its fields. -/
structure RelayDetails where
  relay_pubkey : String
  relayer_pubkey : String
  relayee_pubkey : String
  relayer_stroops : Nat
  relayee_stroops : Nat
  deadline : Nat
  set_options_transaction : Transaction
  relay_transaction : Transaction
  sequence_merge_transaction : Transaction
  timelock_merge_transaction : Transaction

/-- `prepare_relay(relay_pubkey, relayer_pubkey, relayee_pubkey,
relayer_stroops, relayee_stroops, deadline)` (source lines 206-260): build
the relay, sequence-merge and timelock-merge transactions, then the freeze
(set-options) transaction registering their hashes as the only signers, and
return the bundle dictionary. -/
def prepare_relay (horizon : Horizon)
    (relay_pubkey relayer_pubkey relayee_pubkey : String)
    (relayer_stroops relayee_stroops deadline : Nat) : Except StellarError RelayDetails := do
  let relayer_buls := stroops_to_units relayer_stroops
  let relayee_buls := stroops_to_units relayee_stroops
  -- Relay transaction, splitting a payment between a relayer and a relayee.
  let builder ← gen_builder horizon relay_pubkey (some 1)
  let builder := builder.append_payment_op relayer_pubkey relayer_buls BUL_TOKEN_CODE (some ISSUER)
  let builder := builder.append_payment_op relayee_pubkey relayee_buls BUL_TOKEN_CODE (some ISSUER)
  let builder := add_memo builder "relay".toList
  let relay_envelope := builder.gen_te
  -- Merge transaction, after the relay transaction was submitted.
  let builder ← gen_builder horizon relay_pubkey (some 2)
  let builder := builder.append_change_trust_op BUL_TOKEN_CODE ISSUER (some ⟨0⟩)
  let builder := builder.append_account_merge_op relayer_pubkey
  let builder := add_memo builder "close relay".toList
  let sequence_merge_envelope := builder.gen_te
  -- Merge transaction for when the relay was not submitted, after the deadline.
  let builder ← gen_builder horizon relay_pubkey (some 1)
  let builder := builder.append_change_trust_op BUL_TOKEN_CODE ISSUER (some ⟨0⟩)
  let builder := builder.append_account_merge_op relayer_pubkey
  let builder := builder.add_time_bounds ⟨deadline, 0⟩
  let builder := add_memo builder "close relay".toList
  let timelock_merge_envelope := builder.gen_te
  -- Set transactions as only signers.
  let builder ← gen_builder horizon relay_pubkey none
  let builder := builder.append_set_options_signer_op
    (.preAuthTxHash relay_envelope.hash_meta) "preAuthTx" 1
  let builder := builder.append_set_options_signer_op
    (.preAuthTxHash sequence_merge_envelope.hash_meta) "preAuthTx" 1
  let builder := builder.append_set_options_signer_op
    (.preAuthTxHash timelock_merge_envelope.hash_meta) "preAuthTx" 1
  let builder := builder.append_set_options_thresholds_op 0 1 1 1
  let builder := add_memo builder "freeze".toList
  let set_options_envelope := builder.gen_te
  pure { relay_pubkey, relayer_pubkey, relayee_pubkey,
         relayer_stroops, relayee_stroops, deadline,
         set_options_transaction := set_options_envelope.xdr,
         relay_transaction := relay_envelope.xdr,
         sequence_merge_transaction := sequence_merge_envelope.xdr,
         timelock_merge_transaction := timelock_merge_envelope.xdr }

/-- The escrow bundle `prepare_escrow` produces when the escrow account
exists with on-ledger sequence `s`, written in closed form. -/
def escrow_bundle (escrow_pubkey launcher_pubkey courier_pubkey recipient_pubkey : String)
    (payment collateral deadline s : Nat) : EscrowDetails :=
  let total := stroops_to_units (payment + collateral)
  let refund_envelope : Transaction :=
    { source := escrow_pubkey, sequence := s + 1,
      operations := [.payment launcher_pubkey total BUL_TOKEN_CODE (some ISSUER)],
      time_bounds := some ⟨deadline, 0⟩, memo := some "refund".toList }
  let payment_envelope : Transaction :=
    { source := escrow_pubkey, sequence := s + 1,
      operations := [.payment courier_pubkey total BUL_TOKEN_CODE (some ISSUER)],
      time_bounds := none, memo := some "payment".toList }
  let merge_envelope : Transaction :=
    { source := escrow_pubkey, sequence := s + 2,
      operations := [.changeTrust BUL_TOKEN_CODE ISSUER (some ⟨0⟩),
                     .accountMerge launcher_pubkey],
      time_bounds := none, memo := some "close escrow".toList }
  let set_options_envelope : Transaction :=
    { source := escrow_pubkey, sequence := s,
      operations :=
        [.setOptions (some (.preAuthTxHash refund_envelope.hash_meta))
           (some "preAuthTx") (some 2) none none none none,
         .setOptions (some (.preAuthTxHash payment_envelope.hash_meta))
           (some "preAuthTx") (some 1) none none none none,
         .setOptions (some (.preAuthTxHash merge_envelope.hash_meta))
           (some "preAuthTx") (some 3) none none none none,
         .setOptions (some (.pubkeyAddress recipient_pubkey))
           (some "ed25519PublicKey") (some 1) none none none none,
         .setOptions none none none (some 0) (some 1) (some 2) (some 3)],
      time_bounds := none, memo := some "freeze".toList }
  { escrow_pubkey, launcher_pubkey, recipient_pubkey, payment, collateral, deadline,
    set_options_transaction := set_options_envelope,
    refund_transaction := refund_envelope,
    payment_transaction := payment_envelope,
    merge_transaction := merge_envelope }

/-- The relay bundle `prepare_relay` produces when the relay account exists
with on-ledger sequence `s`, written in closed form. -/
def relay_bundle (relay_pubkey relayer_pubkey relayee_pubkey : String)
    (relayer_stroops relayee_stroops deadline s : Nat) : RelayDetails :=
  let relay_envelope : Transaction :=
    { source := relay_pubkey, sequence := s + 1,
      operations := [.payment relayer_pubkey (stroops_to_units relayer_stroops)
                       BUL_TOKEN_CODE (some ISSUER),
                     .payment relayee_pubkey (stroops_to_units relayee_stroops)
                       BUL_TOKEN_CODE (some ISSUER)],
      time_bounds := none, memo := some "relay".toList }
  let sequence_merge_envelope : Transaction :=
    { source := relay_pubkey, sequence := s + 2,
      operations := [.changeTrust BUL_TOKEN_CODE ISSUER (some ⟨0⟩),
                     .accountMerge relayer_pubkey],
      time_bounds := none, memo := some "close relay".toList }
  let timelock_merge_envelope : Transaction :=
    { source := relay_pubkey, sequence := s + 1,
      operations := [.changeTrust BUL_TOKEN_CODE ISSUER (some ⟨0⟩),
                     .accountMerge relayer_pubkey],
      time_bounds := some ⟨deadline, 0⟩, memo := some "close relay".toList }
  let set_options_envelope : Transaction :=
    { source := relay_pubkey, sequence := s,
      operations :=
        [.setOptions (some (.preAuthTxHash relay_envelope.hash_meta))
           (some "preAuthTx") (some 1) none none none none,
         .setOptions (some (.preAuthTxHash sequence_merge_envelope.hash_meta))
           (some "preAuthTx") (some 1) none none none none,
         .setOptions (some (.preAuthTxHash timelock_merge_envelope.hash_meta))
           (some "preAuthTx") (some 1) none none none none,
         .setOptions none none none (some 0) (some 1) (some 1) (some 1)],
      time_bounds := none, memo := some "freeze".toList }
  { relay_pubkey, relayer_pubkey, relayee_pubkey,
    relayer_stroops, relayee_stroops, deadline,
    set_options_transaction := set_options_envelope,
    relay_transaction := relay_envelope,
    sequence_merge_transaction := sequence_merge_envelope,
    timelock_merge_transaction := timelock_merge_envelope }

lemma process_balance_sequence (a : Account) (b : BalanceEntry) :
    (process_balance a b).sequence = a.sequence := by
  unfold process_balance
  dsimp only
  split <;> split <;> rfl

lemma process_balances_sequence (l : List BalanceEntry) :
    ∀ a : Account, (process_balances a l).sequence = a.sequence := by
  induction l with
  | nil => intro a; rfl
  | cons b t ih =>
    intro a
    show (process_balances (process_balance a b) t).sequence = a.sequence
    rw [ih, process_balance_sequence]

lemma get_bul_account_untrusted (horizon : Horizon) (pubkey : String) (d : AddressDetails)
    (h : horizon pubkey = some d) :
    get_bul_account horizon pubkey true =
      .ok (process_balances
        { sequence := d.sequence, signers := d.signers, thresholds := d.thresholds,
          xlm_balance := none, bul_balance := none, bul_limit := none } d.balances) := by
  unfold get_bul_account
  simp [h]

lemma gen_builder_pos (horizon : Horizon) (pubkey : String) (d : AddressDetails)
    (delta : Nat) (hd : delta ≠ 0) (h : horizon pubkey = some d) :
    gen_builder horizon pubkey (some delta) =
      .ok { address := pubkey, sequence := d.sequence + delta,
            operations := [], time_bounds := none, memo := none } := by
  unfold gen_builder
  rw [get_bul_account_untrusted horizon pubkey d h]
  simp [hd, process_balances_sequence]

lemma gen_builder_fetch (horizon : Horizon) (pubkey : String) (d : AddressDetails)
    (h : horizon pubkey = some d) :
    gen_builder horizon pubkey none =
      .ok { address := pubkey, sequence := d.sequence,
            operations := [], time_bounds := none, memo := none } := by
  unfold gen_builder
  simp [h]

lemma prepare_escrow_ok (horizon : Horizon)
    (escrow_pubkey launcher_pubkey courier_pubkey recipient_pubkey : String)
    (payment collateral deadline : Nat) (d : AddressDetails)
    (h : horizon escrow_pubkey = some d) :
    prepare_escrow horizon escrow_pubkey launcher_pubkey courier_pubkey recipient_pubkey
        payment collateral deadline =
      .ok (escrow_bundle escrow_pubkey launcher_pubkey courier_pubkey recipient_pubkey
        payment collateral deadline d.sequence) := by
  unfold prepare_escrow
  rw [gen_builder_pos horizon escrow_pubkey d 1 one_ne_zero h,
      gen_builder_pos horizon escrow_pubkey d 2 two_ne_zero h,
      gen_builder_fetch horizon escrow_pubkey d h]
  rfl

lemma prepare_relay_ok (horizon : Horizon)
    (relay_pubkey relayer_pubkey relayee_pubkey : String)
    (relayer_stroops relayee_stroops deadline : Nat) (d : AddressDetails)
    (h : horizon relay_pubkey = some d) :
    prepare_relay horizon relay_pubkey relayer_pubkey relayee_pubkey
        relayer_stroops relayee_stroops deadline =
      .ok (relay_bundle relay_pubkey relayer_pubkey relayee_pubkey
        relayer_stroops relayee_stroops deadline d.sequence) := by
  unfold prepare_relay
  rw [gen_builder_pos horizon relay_pubkey d 1 one_ne_zero h,
      gen_builder_pos horizon relay_pubkey d 2 two_ne_zero h,
      gen_builder_fetch horizon relay_pubkey d h]
  rfl

/-- A concrete account-details fixture: sequence 100, a native balance and a
trusted BUL balance. -/
def test_details : AddressDetails :=
  { sequence := 100, signers := [],
    thresholds := { low_threshold := 0, med_threshold := 0, high_threshold := 0 },
    balances :=
      [{ asset_type := some "native", asset_code := none, asset_issuer := none,
         balance := ⟨1000000000⟩, limit := ⟨0⟩ },
       { asset_type := some "credit_alphanum4", asset_code := some "BUL",
         asset_issuer := some ISSUER, balance := ⟨500⟩, limit := ⟨9000⟩ }] }

/-- A concrete ledger snapshot fixture in which a few accounts exist. -/
def test_horizon : Horizon := fun pubkey =>
  if pubkey = "GESCROW" ∨ pubkey = "GRELAY" ∨ pubkey = "GSENDER" then some test_details
  else none

/-- C1: for every escrow bundle built by `prepare_escrow`, the freeze
(set-options) transaction registers the refund hash as a pre-authorized
signer with weight 2, the payment hash with weight 1, the merge hash with
weight 3, the recipient public key as a real signer with weight 1, and then
sets master key weight 0 and thresholds low 1, medium 2, high 3 — exactly
these numbers, in exactly this operation list. -/
theorem C1_escrow_freeze_signers (horizon : Horizon)
    (escrow_pubkey launcher_pubkey courier_pubkey recipient_pubkey : String)
    (payment collateral deadline : Nat) (d : AddressDetails)
    (h : horizon escrow_pubkey = some d) :
    prepare_escrow horizon escrow_pubkey launcher_pubkey courier_pubkey recipient_pubkey
        payment collateral deadline =
      .ok (escrow_bundle escrow_pubkey launcher_pubkey courier_pubkey recipient_pubkey
        payment collateral deadline d.sequence) ∧
    (escrow_bundle escrow_pubkey launcher_pubkey courier_pubkey recipient_pubkey
        payment collateral deadline d.sequence).set_options_transaction.operations =
      [.setOptions (some (.preAuthTxHash
          (escrow_bundle escrow_pubkey launcher_pubkey courier_pubkey recipient_pubkey
            payment collateral deadline d.sequence).refund_transaction.hash_meta))
         (some "preAuthTx") (some 2) none none none none,
       .setOptions (some (.preAuthTxHash
          (escrow_bundle escrow_pubkey launcher_pubkey courier_pubkey recipient_pubkey
            payment collateral deadline d.sequence).payment_transaction.hash_meta))
         (some "preAuthTx") (some 1) none none none none,
       .setOptions (some (.preAuthTxHash
          (escrow_bundle escrow_pubkey launcher_pubkey courier_pubkey recipient_pubkey
            payment collateral deadline d.sequence).merge_transaction.hash_meta))
         (some "preAuthTx") (some 3) none none none none,
       .setOptions (some (.pubkeyAddress recipient_pubkey))
         (some "ed25519PublicKey") (some 1) none none none none,
       .setOptions none none none (some 0) (some 1) (some 2) (some 3)] :=
  ⟨prepare_escrow_ok horizon escrow_pubkey launcher_pubkey courier_pubkey recipient_pubkey
    payment collateral deadline d h, rfl⟩

/-- Witness for C1 at a concrete ledger snapshot and bundle. -/
theorem C1_escrow_freeze_signers_witness :
    prepare_escrow test_horizon "GESCROW" "GLAUNCHER" "GCOURIER" "GRECIPIENT" 100 50 999 =
      .ok (escrow_bundle "GESCROW" "GLAUNCHER" "GCOURIER" "GRECIPIENT" 100 50 999 100) ∧
    (escrow_bundle "GESCROW" "GLAUNCHER" "GCOURIER" "GRECIPIENT"
        100 50 999 100).set_options_transaction.operations =
      [.setOptions (some (.preAuthTxHash
          (escrow_bundle "GESCROW" "GLAUNCHER" "GCOURIER" "GRECIPIENT"
            100 50 999 100).refund_transaction.hash_meta))
         (some "preAuthTx") (some 2) none none none none,
       .setOptions (some (.preAuthTxHash
          (escrow_bundle "GESCROW" "GLAUNCHER" "GCOURIER" "GRECIPIENT"
            100 50 999 100).payment_transaction.hash_meta))
         (some "preAuthTx") (some 1) none none none none,
       .setOptions (some (.preAuthTxHash
          (escrow_bundle "GESCROW" "GLAUNCHER" "GCOURIER" "GRECIPIENT"
            100 50 999 100).merge_transaction.hash_meta))
         (some "preAuthTx") (some 3) none none none none,
       .setOptions (some (.pubkeyAddress "GRECIPIENT"))
         (some "ed25519PublicKey") (some 1) none none none none,
       .setOptions none none none (some 0) (some 1) (some 2) (some 3)] :=
  C1_escrow_freeze_signers test_horizon "GESCROW" "GLAUNCHER" "GCOURIER" "GRECIPIENT"
    100 50 999 test_details rfl

/-- C2: in every escrow bundle, the refund transaction and the payment
transaction both pay `payment + collateral` (converted to units) — to the
launcher and the courier respectively; the refund transaction carries time
bounds `minTime = deadline`, `maxTime = 0`, and the payment transaction
carries no time bounds. -/
theorem C2_escrow_amounts_and_bounds (horizon : Horizon)
    (escrow_pubkey launcher_pubkey courier_pubkey recipient_pubkey : String)
    (payment collateral deadline : Nat) (d : AddressDetails)
    (h : horizon escrow_pubkey = some d) :
    prepare_escrow horizon escrow_pubkey launcher_pubkey courier_pubkey recipient_pubkey
        payment collateral deadline =
      .ok (escrow_bundle escrow_pubkey launcher_pubkey courier_pubkey recipient_pubkey
        payment collateral deadline d.sequence) ∧
    (escrow_bundle escrow_pubkey launcher_pubkey courier_pubkey recipient_pubkey
        payment collateral deadline d.sequence).refund_transaction.operations =
      [.payment launcher_pubkey (stroops_to_units (payment + collateral))
        BUL_TOKEN_CODE (some ISSUER)] ∧
    (escrow_bundle escrow_pubkey launcher_pubkey courier_pubkey recipient_pubkey
        payment collateral deadline d.sequence).payment_transaction.operations =
      [.payment courier_pubkey (stroops_to_units (payment + collateral))
        BUL_TOKEN_CODE (some ISSUER)] ∧
    (escrow_bundle escrow_pubkey launcher_pubkey courier_pubkey recipient_pubkey
        payment collateral deadline d.sequence).refund_transaction.time_bounds =
      some ⟨deadline, 0⟩ ∧
    (escrow_bundle escrow_pubkey launcher_pubkey courier_pubkey recipient_pubkey
        payment collateral deadline d.sequence).payment_transaction.time_bounds = none :=
  ⟨prepare_escrow_ok horizon escrow_pubkey launcher_pubkey courier_pubkey recipient_pubkey
    payment collateral deadline d h, rfl, rfl, rfl, rfl⟩

/-- Witness for C2 at the scenario of the spec: payment 100000000, collateral
50000000 — both envelopes pay 150000000 stroops worth of units. -/
theorem C2_escrow_amounts_and_bounds_witness :
    prepare_escrow test_horizon "GESCROW" "GLAUNCHER" "GCOURIER" "GRECIPIENT"
        100000000 50000000 1568455600 =
      .ok (escrow_bundle "GESCROW" "GLAUNCHER" "GCOURIER" "GRECIPIENT"
        100000000 50000000 1568455600 100) ∧
    (escrow_bundle "GESCROW" "GLAUNCHER" "GCOURIER" "GRECIPIENT"
        100000000 50000000 1568455600 100).refund_transaction.operations =
      [.payment "GLAUNCHER" (stroops_to_units 150000000) BUL_TOKEN_CODE (some ISSUER)] ∧
    (escrow_bundle "GESCROW" "GLAUNCHER" "GCOURIER" "GRECIPIENT"
        100000000 50000000 1568455600 100).payment_transaction.operations =
      [.payment "GCOURIER" (stroops_to_units 150000000) BUL_TOKEN_CODE (some ISSUER)] ∧
    (escrow_bundle "GESCROW" "GLAUNCHER" "GCOURIER" "GRECIPIENT"
        100000000 50000000 1568455600 100).refund_transaction.time_bounds =
      some ⟨1568455600, 0⟩ ∧
    (escrow_bundle "GESCROW" "GLAUNCHER" "GCOURIER" "GRECIPIENT"
        100000000 50000000 1568455600 100).payment_transaction.time_bounds = none :=
  C2_escrow_amounts_and_bounds test_horizon "GESCROW" "GLAUNCHER" "GCOURIER" "GRECIPIENT"
    100000000 50000000 1568455600 test_details rfl

/-- C3: in every relay bundle, the relay transaction and the timelock-merge
transaction both carry sequence `S + 1` (the same slot), the sequence-merge
transaction carries `S + 2`, the timelock-merge transaction carries time
bound `minTime = deadline`, and the relay transaction carries none. -/
theorem C3_relay_sequence_offsets (horizon : Horizon)
    (relay_pubkey relayer_pubkey relayee_pubkey : String)
    (relayer_stroops relayee_stroops deadline : Nat) (d : AddressDetails)
    (h : horizon relay_pubkey = some d) :
    prepare_relay horizon relay_pubkey relayer_pubkey relayee_pubkey
        relayer_stroops relayee_stroops deadline =
      .ok (relay_bundle relay_pubkey relayer_pubkey relayee_pubkey
        relayer_stroops relayee_stroops deadline d.sequence) ∧
    (relay_bundle relay_pubkey relayer_pubkey relayee_pubkey
        relayer_stroops relayee_stroops deadline d.sequence).relay_transaction.sequence =
      d.sequence + 1 ∧
    (relay_bundle relay_pubkey relayer_pubkey relayee_pubkey
        relayer_stroops relayee_stroops deadline d.sequence).timelock_merge_transaction.sequence =
      d.sequence + 1 ∧
    (relay_bundle relay_pubkey relayer_pubkey relayee_pubkey
        relayer_stroops relayee_stroops deadline d.sequence).sequence_merge_transaction.sequence =
      d.sequence + 2 ∧
    (relay_bundle relay_pubkey relayer_pubkey relayee_pubkey
        relayer_stroops relayee_stroops deadline d.sequence).timelock_merge_transaction.time_bounds =
      some ⟨deadline, 0⟩ ∧
    (relay_bundle relay_pubkey relayer_pubkey relayee_pubkey
        relayer_stroops relayee_stroops deadline d.sequence).relay_transaction.time_bounds =
      none :=
  ⟨prepare_relay_ok horizon relay_pubkey relayer_pubkey relayee_pubkey
    relayer_stroops relayee_stroops deadline d h, rfl, rfl, rfl, rfl, rfl⟩

/-- Witness for C3 at the scenario of the spec. -/
theorem C3_relay_sequence_offsets_witness :
    prepare_relay test_horizon "GRELAY" "GRELAYER" "GRELAYEE"
        100000000 150000000 1568455600 =
      .ok (relay_bundle "GRELAY" "GRELAYER" "GRELAYEE"
        100000000 150000000 1568455600 100) ∧
    (relay_bundle "GRELAY" "GRELAYER" "GRELAYEE"
        100000000 150000000 1568455600 100).relay_transaction.sequence = 101 ∧
    (relay_bundle "GRELAY" "GRELAYER" "GRELAYEE"
        100000000 150000000 1568455600 100).timelock_merge_transaction.sequence = 101 ∧
    (relay_bundle "GRELAY" "GRELAYER" "GRELAYEE"
        100000000 150000000 1568455600 100).sequence_merge_transaction.sequence = 102 ∧
    (relay_bundle "GRELAY" "GRELAYER" "GRELAYEE"
        100000000 150000000 1568455600 100).timelock_merge_transaction.time_bounds =
      some ⟨1568455600, 0⟩ ∧
    (relay_bundle "GRELAY" "GRELAYER" "GRELAYEE"
        100000000 150000000 1568455600 100).relay_transaction.time_bounds = none :=
  C3_relay_sequence_offsets test_horizon "GRELAY" "GRELAYER" "GRELAYEE"
    100000000 150000000 1568455600 test_details rfl

/-- Whether an operation registers a signer (pre-authorized hash or real
public key) via set-options. -/
def Operation.registers_signer : Operation → Bool
  | .setOptions (some _) _ _ _ _ _ _ => true
  | _ => false

/-- Whether an operation sets the master key weight to 0 via set-options. -/
def Operation.zeroes_master_weight : Operation → Bool
  | .setOptions _ _ _ (some 0) _ _ _ => true
  | _ => false

/-- C4: in both freeze transactions, every set-options operation registering
a signer occurs at an earlier position of the single freeze transaction's
operation list than the set-options operation zeroing the master key weight
(so all of them are operations of that one transaction). -/
theorem C4_signers_before_master_zero (horizon : Horizon)
    (escrow_pubkey launcher_pubkey courier_pubkey recipient_pubkey : String)
    (payment collateral deadline : Nat)
    (relay_pubkey relayer_pubkey relayee_pubkey : String)
    (relayer_stroops relayee_stroops relay_deadline : Nat)
    (d d2 : AddressDetails)
    (he : horizon escrow_pubkey = some d) (hr : horizon relay_pubkey = some d2) :
    prepare_escrow horizon escrow_pubkey launcher_pubkey courier_pubkey recipient_pubkey
        payment collateral deadline =
      .ok (escrow_bundle escrow_pubkey launcher_pubkey courier_pubkey recipient_pubkey
        payment collateral deadline d.sequence) ∧
    prepare_relay horizon relay_pubkey relayer_pubkey relayee_pubkey
        relayer_stroops relayee_stroops relay_deadline =
      .ok (relay_bundle relay_pubkey relayer_pubkey relayee_pubkey
        relayer_stroops relayee_stroops relay_deadline d2.sequence) ∧
    (∀ i j : Fin (escrow_bundle escrow_pubkey launcher_pubkey courier_pubkey recipient_pubkey
        payment collateral deadline d.sequence).set_options_transaction.operations.length,
      ((escrow_bundle escrow_pubkey launcher_pubkey courier_pubkey recipient_pubkey
        payment collateral deadline d.sequence).set_options_transaction.operations.get i).registers_signer →
      ((escrow_bundle escrow_pubkey launcher_pubkey courier_pubkey recipient_pubkey
        payment collateral deadline d.sequence).set_options_transaction.operations.get j).zeroes_master_weight →
      i.val < j.val) ∧
    (∀ i j : Fin (relay_bundle relay_pubkey relayer_pubkey relayee_pubkey
        relayer_stroops relayee_stroops relay_deadline d2.sequence).set_options_transaction.operations.length,
      ((relay_bundle relay_pubkey relayer_pubkey relayee_pubkey
        relayer_stroops relayee_stroops relay_deadline d2.sequence).set_options_transaction.operations.get i).registers_signer →
      ((relay_bundle relay_pubkey relayer_pubkey relayee_pubkey
        relayer_stroops relayee_stroops relay_deadline d2.sequence).set_options_transaction.operations.get j).zeroes_master_weight →
      i.val < j.val) := by
  refine ⟨prepare_escrow_ok horizon escrow_pubkey launcher_pubkey courier_pubkey
    recipient_pubkey payment collateral deadline d he,
    prepare_relay_ok horizon relay_pubkey relayer_pubkey relayee_pubkey
    relayer_stroops relayee_stroops relay_deadline d2 hr, ?_, ?_⟩
  · intro i j
    fin_cases i <;> fin_cases j <;>
      simp [escrow_bundle, List.get, Operation.registers_signer,
        Operation.zeroes_master_weight]
  · intro i j
    fin_cases i <;> fin_cases j <;>
      simp [relay_bundle, List.get, Operation.registers_signer,
        Operation.zeroes_master_weight]

/-- Witness for C4 at a concrete snapshot: signer registrations sit at
positions 0-3 (escrow) and 0-2 (relay), the master-zeroing operation at
positions 4 and 3; position 0 precedes them in both freeze transactions. -/
theorem C4_signers_before_master_zero_witness :
    prepare_escrow test_horizon "GESCROW" "GLAUNCHER" "GCOURIER" "GRECIPIENT" 100 50 999 =
      .ok (escrow_bundle "GESCROW" "GLAUNCHER" "GCOURIER" "GRECIPIENT" 100 50 999 100) ∧
    prepare_relay test_horizon "GRELAY" "GRELAYER" "GRELAYEE" 100 50 999 =
      .ok (relay_bundle "GRELAY" "GRELAYER" "GRELAYEE" 100 50 999 100) ∧
    (0 : Nat) < 4 ∧ (0 : Nat) < 3 := by
  have h := C4_signers_before_master_zero test_horizon
    "GESCROW" "GLAUNCHER" "GCOURIER" "GRECIPIENT" 100 50 999
    "GRELAY" "GRELAYER" "GRELAYEE" 100 50 999
    test_details test_details rfl rfl
  refine ⟨h.1, h.2.1, ?_, ?_⟩
  · exact h.2.2.1 ⟨0, by decide⟩ ⟨4, by decide⟩ (by decide) (by decide)
  · exact h.2.2.2 ⟨0, by decide⟩ ⟨3, by decide⟩ (by decide) (by decide)

/-- A fresh builder for memo fixtures. -/
def c5_builder : Builder :=
  { address := "GESCROW", sequence := 100, operations := [],
    time_bounds := none, memo := none }

/-- A memo of 15 code points, each two UTF-8 bytes: 30 bytes in total. -/
def c5_memo : List Char := List.replicate 15 'é'

/-- C5 counterexample: a memo whose byte length (30) exceeds 28 but whose
code-point count (15) does not is attached unchanged by `add_memo`, so the
attached memo is not 28 bytes long — truncation is by code points, not by
bytes. -/
theorem C5_counterexample :
    28 < byteLength c5_memo ∧
    (add_memo c5_builder c5_memo).memo = some c5_memo ∧
    byteLength c5_memo ≠ 28 := by
  decide

/-- C5 (amended): truncation measures the memo in code points (Python `len`
on `str`): a memo of more than 28 code points is truncated to exactly its
first 28 code points, a memo of at most 28 code points is attached
unchanged, and the truncation is idempotent. -/
theorem C5_memo_truncation (builder : Builder) (memo : List Char) :
    (28 < memo.length →
      (add_memo builder memo).memo = some (memo.take 28) ∧ (memo.take 28).length = 28) ∧
    (memo.length ≤ 28 → (add_memo builder memo).memo = some memo) ∧
    memo_policy (memo_policy memo) = memo_policy memo := by
  refine ⟨?_, ?_, ?_⟩
  · intro hlen
    constructor
    · simp [add_memo, Builder.add_text_memo, memo_policy, hlen]
    · rw [List.length_take]
      omega
  · intro hlen
    have hn : ¬ memo.length > 28 := by omega
    simp [add_memo, Builder.add_text_memo, memo_policy, hn]
  · unfold memo_policy
    split
    · rename_i hgt
      rw [if_neg]
      rw [List.length_take]
      omega
    · rfl

/-- Witness for C5 at concrete memos: a 40-character memo is cut to its
first 28 characters, a short memo passes through unchanged, and the policy
is idempotent on the long memo. -/
theorem C5_memo_truncation_witness :
    (add_memo c5_builder (List.replicate 40 'a')).memo =
      some ((List.replicate 40 'a').take 28) ∧
    ((List.replicate 40 'a').take 28).length = 28 ∧
    (add_memo c5_builder "refund".toList).memo = some "refund".toList ∧
    memo_policy (memo_policy (List.replicate 40 'a')) =
      memo_policy (List.replicate 40 'a') :=
  ⟨((C5_memo_truncation c5_builder (List.replicate 40 'a')).1 (by decide)).1,
   ((C5_memo_truncation c5_builder (List.replicate 40 'a')).1 (by decide)).2,
   (C5_memo_truncation c5_builder "refund".toList).2.1 (by decide),
   (C5_memo_truncation c5_builder (List.replicate 40 'a')).2.2⟩

/-- C6: for every existing account with snapshot sequence `S` and every
non-negative `delta`, `gen_builder` gives the transaction being built the
sequence number `S + delta`; for `delta ≥ 1` the builder is created with the
explicit sequence `S + delta`, and for `delta = 0` the account's current
sequence is used directly. -/
lemma gen_builder_zero (horizon : Horizon) (pubkey : String) (d : AddressDetails)
    (h : horizon pubkey = some d) :
    gen_builder horizon pubkey (some 0) =
      .ok { address := pubkey, sequence := d.sequence,
            operations := [], time_bounds := none, memo := none } := by
  unfold gen_builder
  simp [h]

theorem C6_sequence_allocator (horizon : Horizon) (pubkey : String)
    (d : AddressDetails) (delta : Nat) (h : horizon pubkey = some d) :
    (gen_builder horizon pubkey (some delta)).map Builder.sequence =
      .ok (d.sequence + delta) ∧
    (1 ≤ delta → gen_builder horizon pubkey (some delta) =
      .ok { address := pubkey, sequence := d.sequence + delta,
            operations := [], time_bounds := none, memo := none }) ∧
    gen_builder horizon pubkey (some 0) =
      .ok { address := pubkey, sequence := d.sequence,
            operations := [], time_bounds := none, memo := none } := by
  refine ⟨?_, ?_, ?_⟩
  · by_cases hd : delta = 0
    · subst hd
      rw [gen_builder_zero horizon pubkey d h]
      rfl
    · rw [gen_builder_pos horizon pubkey d delta hd h]
      rfl
  · intro hd
    exact gen_builder_pos horizon pubkey d delta (by omega) h
  · exact gen_builder_zero horizon pubkey d h

/-- Witness for C6 at a concrete snapshot with sequence 100 and delta 3. -/
theorem C6_sequence_allocator_witness :
    (gen_builder test_horizon "GESCROW" (some 3)).map Builder.sequence = .ok 103 ∧
    (1 ≤ 3 → gen_builder test_horizon "GESCROW" (some 3) =
      .ok { address := "GESCROW", sequence := 103,
            operations := [], time_bounds := none, memo := none }) ∧
    gen_builder test_horizon "GESCROW" (some 0) =
      .ok { address := "GESCROW", sequence := 100,
            operations := [], time_bounds := none, memo := none } :=
  C6_sequence_allocator test_horizon "GESCROW" test_details 3 rfl

lemma gen_builder_pos_missing (horizon : Horizon) (pubkey : String) (delta : Nat)
    (hd : delta ≠ 0) (h : horizon pubkey = none) :
    gen_builder horizon pubkey (some delta) =
      .error (.stellarAccountNotExists ("no account found for " ++ pubkey)) := by
  unfold gen_builder get_bul_account
  simp [h, hd]

/-- C7: a call to `prepare_escrow` or `prepare_relay` against an account that
does not exist fails with `StellarAccountNotExists` (raised by the very first
account lookup, before any envelope is generated), and no bundle — half-built
or complete — is ever returned in that case. -/
theorem C7_missing_account (horizon : Horizon)
    (escrow_pubkey launcher_pubkey courier_pubkey recipient_pubkey : String)
    (payment collateral deadline : Nat)
    (relay_pubkey relayer_pubkey relayee_pubkey : String)
    (relayer_stroops relayee_stroops relay_deadline : Nat)
    (he : horizon escrow_pubkey = none) (hr : horizon relay_pubkey = none) :
    prepare_escrow horizon escrow_pubkey launcher_pubkey courier_pubkey recipient_pubkey
        payment collateral deadline =
      .error (.stellarAccountNotExists ("no account found for " ++ escrow_pubkey)) ∧
    prepare_relay horizon relay_pubkey relayer_pubkey relayee_pubkey
        relayer_stroops relayee_stroops relay_deadline =
      .error (.stellarAccountNotExists ("no account found for " ++ relay_pubkey)) ∧
    (∀ bundle, prepare_escrow horizon escrow_pubkey launcher_pubkey courier_pubkey
      recipient_pubkey payment collateral deadline ≠ .ok bundle) ∧
    (∀ bundle, prepare_relay horizon relay_pubkey relayer_pubkey relayee_pubkey
      relayer_stroops relayee_stroops relay_deadline ≠ .ok bundle) := by
  have h1 : prepare_escrow horizon escrow_pubkey launcher_pubkey courier_pubkey
      recipient_pubkey payment collateral deadline =
      .error (.stellarAccountNotExists ("no account found for " ++ escrow_pubkey)) := by
    unfold prepare_escrow
    rw [gen_builder_pos_missing horizon escrow_pubkey 1 one_ne_zero he]
    rfl
  have h2 : prepare_relay horizon relay_pubkey relayer_pubkey relayee_pubkey
      relayer_stroops relayee_stroops relay_deadline =
      .error (.stellarAccountNotExists ("no account found for " ++ relay_pubkey)) := by
    unfold prepare_relay
    rw [gen_builder_pos_missing horizon relay_pubkey 1 one_ne_zero hr]
    rfl
  refine ⟨h1, h2, ?_, ?_⟩
  · intro bundle hok
    rw [h1] at hok
    exact Except.noConfusion hok
  · intro bundle hok
    rw [h2] at hok
    exact Except.noConfusion hok

/-- Witness for C7 at a concrete snapshot in which the accounts are absent. -/
theorem C7_missing_account_witness :
    prepare_escrow test_horizon "GMISSINGESCROW" "GLAUNCHER" "GCOURIER" "GRECIPIENT"
        100 50 999 =
      .error (.stellarAccountNotExists ("no account found for " ++ "GMISSINGESCROW")) ∧
    prepare_relay test_horizon "GMISSINGRELAY" "GRELAYER" "GRELAYEE" 100 50 999 =
      .error (.stellarAccountNotExists ("no account found for " ++ "GMISSINGRELAY")) ∧
    (∀ bundle, prepare_escrow test_horizon "GMISSINGESCROW" "GLAUNCHER" "GCOURIER"
      "GRECIPIENT" 100 50 999 ≠ .ok bundle) ∧
    (∀ bundle, prepare_relay test_horizon "GMISSINGRELAY" "GRELAYER" "GRELAYEE"
      100 50 999 ≠ .ok bundle) :=
  C7_missing_account test_horizon "GMISSINGESCROW" "GLAUNCHER" "GCOURIER" "GRECIPIENT"
    100 50 999 "GMISSINGRELAY" "GRELAYER" "GRELAYEE" 100 50 999 rfl rfl

/-- C8 counterexample: in the relay bundle built at a concrete snapshot, the
sequence-merge transaction and the timelock-merge transaction carry the same
memo (the text `close relay`), so the four relay sub-transactions are not
pairwise distinguishable by memo alone. -/
theorem C8_counterexample :
    prepare_relay test_horizon "GRELAY" "GRELAYER" "GRELAYEE"
        100000000 150000000 1568455600 =
      .ok (relay_bundle "GRELAY" "GRELAYER" "GRELAYEE"
        100000000 150000000 1568455600 100) ∧
    (relay_bundle "GRELAY" "GRELAYER" "GRELAYEE"
        100000000 150000000 1568455600 100).sequence_merge_transaction.memo =
      (relay_bundle "GRELAY" "GRELAYER" "GRELAYEE"
        100000000 150000000 1568455600 100).timelock_merge_transaction.memo ∧
    (relay_bundle "GRELAY" "GRELAYER" "GRELAYEE"
        100000000 150000000 1568455600 100).sequence_merge_transaction.memo =
      some "close relay".toList :=
  ⟨prepare_relay_ok test_horizon "GRELAY" "GRELAYER" "GRELAYEE"
    100000000 150000000 1568455600 test_details rfl, rfl, rfl⟩

/-- C8 (amended): the memo policy is applied to every transaction of both
bundles; the four escrow sub-transaction memos are pairwise distinct, while
in the relay bundle the sequence-merge and timelock-merge transactions share
the memo `close relay` and the other relay memo pairs are distinct. -/
theorem C8_bundle_memos (horizon : Horizon)
    (escrow_pubkey launcher_pubkey courier_pubkey recipient_pubkey : String)
    (payment collateral deadline : Nat)
    (relay_pubkey relayer_pubkey relayee_pubkey : String)
    (relayer_stroops relayee_stroops relay_deadline : Nat)
    (d d2 : AddressDetails)
    (he : horizon escrow_pubkey = some d) (hr : horizon relay_pubkey = some d2) :
    prepare_escrow horizon escrow_pubkey launcher_pubkey courier_pubkey recipient_pubkey
        payment collateral deadline =
      .ok (escrow_bundle escrow_pubkey launcher_pubkey courier_pubkey recipient_pubkey
        payment collateral deadline d.sequence) ∧
    prepare_relay horizon relay_pubkey relayer_pubkey relayee_pubkey
        relayer_stroops relayee_stroops relay_deadline =
      .ok (relay_bundle relay_pubkey relayer_pubkey relayee_pubkey
        relayer_stroops relayee_stroops relay_deadline d2.sequence) ∧
    ((escrow_bundle escrow_pubkey launcher_pubkey courier_pubkey recipient_pubkey
        payment collateral deadline d.sequence).refund_transaction.memo =
      some (memo_policy "refund".toList) ∧
     (escrow_bundle escrow_pubkey launcher_pubkey courier_pubkey recipient_pubkey
        payment collateral deadline d.sequence).payment_transaction.memo =
      some (memo_policy "payment".toList) ∧
     (escrow_bundle escrow_pubkey launcher_pubkey courier_pubkey recipient_pubkey
        payment collateral deadline d.sequence).merge_transaction.memo =
      some (memo_policy "close escrow".toList) ∧
     (escrow_bundle escrow_pubkey launcher_pubkey courier_pubkey recipient_pubkey
        payment collateral deadline d.sequence).set_options_transaction.memo =
      some (memo_policy "freeze".toList)) ∧
    List.Pairwise (fun a b => a ≠ b)
      [some (memo_policy "refund".toList), some (memo_policy "payment".toList),
       some (memo_policy "close escrow".toList), some (memo_policy "freeze".toList)] ∧
    ((relay_bundle relay_pubkey relayer_pubkey relayee_pubkey
        relayer_stroops relayee_stroops relay_deadline d2.sequence).relay_transaction.memo =
      some (memo_policy "relay".toList) ∧
     (relay_bundle relay_pubkey relayer_pubkey relayee_pubkey
        relayer_stroops relayee_stroops relay_deadline d2.sequence).sequence_merge_transaction.memo =
      some (memo_policy "close relay".toList) ∧
     (relay_bundle relay_pubkey relayer_pubkey relayee_pubkey
        relayer_stroops relayee_stroops relay_deadline d2.sequence).timelock_merge_transaction.memo =
      some (memo_policy "close relay".toList) ∧
     (relay_bundle relay_pubkey relayer_pubkey relayee_pubkey
        relayer_stroops relayee_stroops relay_deadline d2.sequence).set_options_transaction.memo =
      some (memo_policy "freeze".toList)) ∧
    memo_policy "relay".toList ≠ memo_policy "close relay".toList ∧
    memo_policy "relay".toList ≠ memo_policy "freeze".toList ∧
    memo_policy "close relay".toList ≠ memo_policy "freeze".toList := by
  refine ⟨prepare_escrow_ok horizon escrow_pubkey launcher_pubkey courier_pubkey
      recipient_pubkey payment collateral deadline d he,
    prepare_relay_ok horizon relay_pubkey relayer_pubkey relayee_pubkey
      relayer_stroops relayee_stroops relay_deadline d2 hr,
    ⟨rfl, rfl, rfl, rfl⟩, by decide, ⟨rfl, rfl, rfl, rfl⟩, by decide, by decide, by decide⟩

/-- Witness for C8 (amended) at a concrete snapshot. -/
theorem C8_bundle_memos_witness :
    prepare_escrow test_horizon "GESCROW" "GLAUNCHER" "GCOURIER" "GRECIPIENT" 100 50 999 =
      .ok (escrow_bundle "GESCROW" "GLAUNCHER" "GCOURIER" "GRECIPIENT" 100 50 999 100) ∧
    (escrow_bundle "GESCROW" "GLAUNCHER" "GCOURIER" "GRECIPIENT"
        100 50 999 100).refund_transaction.memo = some (memo_policy "refund".toList) ∧
    (relay_bundle "GRELAY" "GRELAYER" "GRELAYEE"
        100 50 999 100).sequence_merge_transaction.memo =
      some (memo_policy "close relay".toList) ∧
    memo_policy "relay".toList ≠ memo_policy "close relay".toList := by
  have h := C8_bundle_memos test_horizon "GESCROW" "GLAUNCHER" "GCOURIER" "GRECIPIENT"
    100 50 999 "GRELAY" "GRELAYER" "GRELAYEE" 100 50 999
    test_details test_details rfl rfl
  exact ⟨h.1, h.2.2.1.1, h.2.2.2.2.1.2.1, h.2.2.2.2.2.1⟩

/-- C9 counterexample: at a concrete snapshot with pairwise distinct party
keys, the bundle `prepare_escrow` returns has no `courier_pubkey` entry —
the dictionary keys lack it, and none of the business-parameter fields holds
the courier's public key. -/
theorem C9_counterexample :
    prepare_escrow test_horizon "GESCROW" "GLAUNCHER" "GCOURIER" "GRECIPIENT" 100 50 999 =
      .ok (escrow_bundle "GESCROW" "GLAUNCHER" "GCOURIER" "GRECIPIENT" 100 50 999 100) ∧
    "courier_pubkey" ∉ escrow_details_keys ∧
    (escrow_bundle "GESCROW" "GLAUNCHER" "GCOURIER" "GRECIPIENT"
        100 50 999 100).escrow_pubkey ≠ "GCOURIER" ∧
    (escrow_bundle "GESCROW" "GLAUNCHER" "GCOURIER" "GRECIPIENT"
        100 50 999 100).launcher_pubkey ≠ "GCOURIER" ∧
    (escrow_bundle "GESCROW" "GLAUNCHER" "GCOURIER" "GRECIPIENT"
        100 50 999 100).recipient_pubkey ≠ "GCOURIER" :=
  ⟨prepare_escrow_ok test_horizon "GESCROW" "GLAUNCHER" "GCOURIER" "GRECIPIENT"
    100 50 999 test_details rfl, by decide, by decide, by decide, by decide⟩

/-- C9 (amended): the escrow bundle carries the four envelopes plus the
escrow, launcher and recipient public keys, the payment and collateral
amounts and the deadline, exactly as passed in; the courier's public key is
not among the business parameters and appears only inside the payment
envelope, as the destination of its payment operation. -/
theorem C9_bundle_parameters (horizon : Horizon)
    (escrow_pubkey launcher_pubkey courier_pubkey recipient_pubkey : String)
    (payment collateral deadline : Nat) (d : AddressDetails)
    (h : horizon escrow_pubkey = some d) :
    prepare_escrow horizon escrow_pubkey launcher_pubkey courier_pubkey recipient_pubkey
        payment collateral deadline =
      .ok (escrow_bundle escrow_pubkey launcher_pubkey courier_pubkey recipient_pubkey
        payment collateral deadline d.sequence) ∧
    (escrow_bundle escrow_pubkey launcher_pubkey courier_pubkey recipient_pubkey
        payment collateral deadline d.sequence).escrow_pubkey = escrow_pubkey ∧
    (escrow_bundle escrow_pubkey launcher_pubkey courier_pubkey recipient_pubkey
        payment collateral deadline d.sequence).launcher_pubkey = launcher_pubkey ∧
    (escrow_bundle escrow_pubkey launcher_pubkey courier_pubkey recipient_pubkey
        payment collateral deadline d.sequence).recipient_pubkey = recipient_pubkey ∧
    (escrow_bundle escrow_pubkey launcher_pubkey courier_pubkey recipient_pubkey
        payment collateral deadline d.sequence).payment = payment ∧
    (escrow_bundle escrow_pubkey launcher_pubkey courier_pubkey recipient_pubkey
        payment collateral deadline d.sequence).collateral = collateral ∧
    (escrow_bundle escrow_pubkey launcher_pubkey courier_pubkey recipient_pubkey
        payment collateral deadline d.sequence).deadline = deadline ∧
    "courier_pubkey" ∉ escrow_details_keys ∧
    (escrow_bundle escrow_pubkey launcher_pubkey courier_pubkey recipient_pubkey
        payment collateral deadline d.sequence).payment_transaction.operations =
      [.payment courier_pubkey (stroops_to_units (payment + collateral))
        BUL_TOKEN_CODE (some ISSUER)] :=
  ⟨prepare_escrow_ok horizon escrow_pubkey launcher_pubkey courier_pubkey recipient_pubkey
    payment collateral deadline d h, rfl, rfl, rfl, rfl, rfl, rfl, by decide, rfl⟩

/-- Witness for C9 (amended) at a concrete snapshot. -/
theorem C9_bundle_parameters_witness :
    prepare_escrow test_horizon "GESCROW" "GLAUNCHER" "GCOURIER" "GRECIPIENT" 100 50 999 =
      .ok (escrow_bundle "GESCROW" "GLAUNCHER" "GCOURIER" "GRECIPIENT" 100 50 999 100) ∧
    (escrow_bundle "GESCROW" "GLAUNCHER" "GCOURIER" "GRECIPIENT"
        100 50 999 100).escrow_pubkey = "GESCROW" ∧
    (escrow_bundle "GESCROW" "GLAUNCHER" "GCOURIER" "GRECIPIENT"
        100 50 999 100).launcher_pubkey = "GLAUNCHER" ∧
    (escrow_bundle "GESCROW" "GLAUNCHER" "GCOURIER" "GRECIPIENT"
        100 50 999 100).recipient_pubkey = "GRECIPIENT" ∧
    (escrow_bundle "GESCROW" "GLAUNCHER" "GCOURIER" "GRECIPIENT"
        100 50 999 100).payment = 100 ∧
    (escrow_bundle "GESCROW" "GLAUNCHER" "GCOURIER" "GRECIPIENT"
        100 50 999 100).collateral = 50 ∧
    (escrow_bundle "GESCROW" "GLAUNCHER" "GCOURIER" "GRECIPIENT"
        100 50 999 100).deadline = 999 ∧
    "courier_pubkey" ∉ escrow_details_keys ∧
    (escrow_bundle "GESCROW" "GLAUNCHER" "GCOURIER" "GRECIPIENT"
        100 50 999 100).payment_transaction.operations =
      [.payment "GCOURIER" (stroops_to_units 150) BUL_TOKEN_CODE (some ISSUER)] :=
  C9_bundle_parameters test_horizon "GESCROW" "GLAUNCHER" "GCOURIER" "GRECIPIENT"
    100 50 999 test_details rfl

/-- C10: `prepare_send_buls` returns exactly what `prepare_send` returns for
the BUL token code and issuer, and `prepare_send_lumens` returns exactly
what `prepare_send` returns for the default XLM asset with no issuer; at an
existing account both produce the expected single-payment envelope. -/
theorem C10_send_delegation (horizon : Horizon) (from_pubkey to_pubkey : String)
    (stroop_amount : Nat) (d : AddressDetails) (h : horizon from_pubkey = some d) :
    prepare_send_buls horizon from_pubkey to_pubkey stroop_amount =
      prepare_send horizon from_pubkey to_pubkey stroop_amount BUL_TOKEN_CODE (some ISSUER) ∧
    prepare_send_lumens horizon from_pubkey to_pubkey stroop_amount =
      prepare_send horizon from_pubkey to_pubkey stroop_amount "XLM" none ∧
    prepare_send_buls horizon from_pubkey to_pubkey stroop_amount =
      .ok { source := from_pubkey, sequence := d.sequence,
            operations := [.payment to_pubkey (stroops_to_units stroop_amount)
              BUL_TOKEN_CODE (some ISSUER)],
            time_bounds := none, memo := none } ∧
    prepare_send_lumens horizon from_pubkey to_pubkey stroop_amount =
      .ok { source := from_pubkey, sequence := d.sequence,
            operations := [.payment to_pubkey (stroops_to_units stroop_amount)
              "XLM" none],
            time_bounds := none, memo := none } := by
  refine ⟨rfl, rfl, ?_, ?_⟩
  · unfold prepare_send_buls prepare_send
    rw [gen_builder_fetch horizon from_pubkey d h]
    rfl
  · unfold prepare_send_lumens prepare_send
    rw [gen_builder_fetch horizon from_pubkey d h]
    rfl

/-- Witness for C10 at a concrete snapshot. -/
theorem C10_send_delegation_witness :
    prepare_send_buls test_horizon "GSENDER" "GDEST" 42 =
      prepare_send test_horizon "GSENDER" "GDEST" 42 BUL_TOKEN_CODE (some ISSUER) ∧
    prepare_send_lumens test_horizon "GSENDER" "GDEST" 42 =
      prepare_send test_horizon "GSENDER" "GDEST" 42 "XLM" none ∧
    prepare_send_buls test_horizon "GSENDER" "GDEST" 42 =
      .ok { source := "GSENDER", sequence := 100,
            operations := [.payment "GDEST" (stroops_to_units 42)
              BUL_TOKEN_CODE (some ISSUER)],
            time_bounds := none, memo := none } ∧
    prepare_send_lumens test_horizon "GSENDER" "GDEST" 42 =
      .ok { source := "GSENDER", sequence := 100,
            operations := [.payment "GDEST" (stroops_to_units 42) "XLM" none],
            time_bounds := none, memo := none } :=
  C10_send_delegation test_horizon "GSENDER" "GDEST" 42 test_details rfl
